import Mathlib

/-!
Verification development for the Checkmate backend (Python/FastAPI).

The definitions below are shallow embeddings of the Python source under
`backend/app`.  Floats are modelled as `ℚ` (every numeric literal in the
relevant code is exactly representable), `datetime` values as `ℚ` seconds,
Python dicts as association lists, and fallible Python code as
`Except String _` where the error string records the exception that the
Python interpreter would raise.

Two Python-semantics facts are used repeatedly and are recorded here once:

* the repository uses pydantic v2 (`pydantic_settings`, `model_dump`,
  discriminated unions); a pydantic v2 model stores each field under its
  Python field name, so attribute access through the JSON alias
  (for example `settings.sessionType` when the field is declared
  `session_type: ... = Field(..., alias="sessionType")`) raises
  `AttributeError`; `populate_by_name` only affects construction;
* a pydantic `BaseModel` instance has no `.get` method, so dict-style
  access such as `timeline_event.get("timestamp")` raises `AttributeError`.

Where a claim depends on the first fact, a second definition with the
suffix `FieldSemantics` additionally models the counterfactual semantics
in which an alias attribute read resolves to the underlying field, so that
the verdicts can be checked to be robust to that modelling decision.
-/

namespace Checkmate

/-! ## core/config.py -/

/-- One value of the `STRICTNESS_THRESHOLDS` table in `core/config.py`. -/
structure ThresholdEntry where
  min_confidence : ℚ
  min_sources : ℕ
  tier_c_allowed : Bool
  color_bias : String
deriving DecidableEq, Repr

/-- `STRICTNESS_THRESHOLDS.get(strictness, STRICTNESS_THRESHOLDS[0.5])`
(config.py lines 77-85 and bedrock_service.py line 279): exact-key dict
lookup, written out entry by entry, with the 0.5 entry as the default for
every strictness value that is not a key of the table. -/
def strictnessThresholdsGet (s : ℚ) : ThresholdEntry :=
  if s = 0 then ⟨9/10, 1, false, "conservative"⟩
  else if s = 1/5 then ⟨4/5, 1, false, "sparing"⟩
  else if s = 2/5 then ⟨3/4, 1, false, "balanced"⟩
  else if s = 1/2 then ⟨7/10, 1, true, "balanced"⟩
  else if s = 3/5 then ⟨13/20, 1, true, "more_yellow"⟩
  else if s = 4/5 then ⟨3/5, 1, true, "proactive"⟩
  else if s = 1 then ⟨1/2, 0, true, "aggressive"⟩
  else ⟨7/10, 1, true, "balanced"⟩

/-- The keys of the `STRICTNESS_THRESHOLDS` dict. -/
def strictnessKeys : List ℚ := [0, 1/5, 2/5, 1/2, 3/5, 4/5, 1]

/-! ## models/schemas.py : fact-check data model -/

/-- `SourceTier` enum. -/
inductive SourceTier where
  | A
  | B
  | C
deriving DecidableEq, Repr

/-- `ClaimLabel` enum (`false` is a Lean keyword, hence `false_`). -/
inductive ClaimLabel where
  | supported
  | contested
  | misleading
  | false_
  | uncertain
deriving DecidableEq, Repr

/-- `Source` model. -/
structure Source where
  url : String
  tier : SourceTier
  title : Option String := none
  direct_quote_match : Bool := false
deriving DecidableEq, Repr

/-- `Claim` model. -/
structure Claim where
  text : String
  label : ClaimLabel
  confidence : ℚ
  severity : ℚ
  sources : List Source := []
deriving DecidableEq, Repr

/-- `FactCheckResult` model. -/
structure FactCheckResult where
  claims : List Claim := []
  notes : String := ""
  summary : String := ""
  sources : List Source := []
deriving DecidableEq, Repr

/-! ## bedrock_service.py : MediaAgent strictness filter -/

/-- `MediaAgent._validate_sources` (bedrock_service.py lines 297-314). -/
def validateSources (sources : List Source) (thresholds : ThresholdEntry) : Bool :=
  if thresholds.min_sources = 0 then
    true
  else
    let tier_a_count := (sources.filter (fun s => decide (s.tier = SourceTier.A))).length
    let tier_b_count := (sources.filter (fun s => decide (s.tier = SourceTier.B))).length
    let tier_c_count := (sources.filter (fun s => decide (s.tier = SourceTier.C))).length
    if 1 ≤ tier_a_count ∨ 1 ≤ tier_b_count then
      true
    else if thresholds.tier_c_allowed ∧ thresholds.min_sources ≤ tier_c_count then
      true
    else
      false

/-- `MediaAgent.apply_strictness_filter` (bedrock_service.py lines 277-295):
keep the claims whose confidence reaches the threshold and whose sources
pass `_validate_sources`; notes, summary and sources are passed through. -/
def applyStrictnessFilter (r : FactCheckResult) (strictness : ℚ) : FactCheckResult :=
  let thresholds := strictnessThresholdsGet strictness
  { claims := r.claims.filter
      (fun c => decide (thresholds.min_confidence ≤ c.confidence) &&
                validateSources c.sources thresholds),
    notes := r.notes,
    summary := r.summary,
    sources := r.sources }

/-! ## C1 : strictness filter monotonicity -/

/-- A claim with confidence 0.72 and a single tier-A source, used to show
that the table fallback breaks monotonicity. -/
def claim072 : Claim :=
  { text := "the earth orbits the sun in 365.25 days",
    label := ClaimLabel.supported,
    confidence := 72/100,
    severity := 1/10,
    sources := [{ url := "https://www.britannica.com/science/year", tier := SourceTier.A }] }

/-- A one-claim fact-check result around `claim072`. -/
def factCheck072 : FactCheckResult :=
  { claims := [claim072], notes := "", summary := "one claim", sources := claim072.sources }

/-- A claim passes the per-claim test of `apply_strictness_filter`. -/
def passesStrictness (c : Claim) (thresholds : ThresholdEntry) : Bool :=
  decide (thresholds.min_confidence ≤ c.confidence) && validateSources c.sources thresholds

/-! ## error_recovery_service.py : circuit breaker -/

/-- `CircuitBreakerState` dataclass (error_recovery_service.py lines 41-49).
The `state` field is a string in the source (`"closed"`, `"open"`,
`"half_open"`) and is kept as a string here; times are seconds. -/
structure CircuitBreakerState where
  failure_count : ℕ := 0
  last_failure_time : Option ℚ := none
  state : String := "closed"
  next_attempt_time : Option ℚ := none
  failure_threshold : ℕ := 5
  recovery_timeout : ℚ := 60
deriving DecidableEq, Repr

/-- `CircuitBreakerState()` with all defaults, as created lazily by
`_update_circuit_breaker` for an operation not yet in the registry. -/
def freshBreaker : CircuitBreakerState := {}

/-- `ErrorRecoveryService._update_circuit_breaker` (lines 339-352), for one
operation whose breaker is `b`, recording a failure at time `now`. -/
def updateCircuitBreaker (b : CircuitBreakerState) (now : ℚ) : CircuitBreakerState :=
  let b := { b with failure_count := b.failure_count + 1, last_failure_time := some now }
  if b.failure_threshold ≤ b.failure_count then
    { b with state := "open", next_attempt_time := some (now + b.recovery_timeout) }
  else
    b

/-- `ErrorRecoveryService._circuit_breaker_allows_request` (lines 354-372)
for one operation present in the registry.  The call both returns the
verdict and mutates the breaker (open → half_open on timeout), so the
embedding returns the pair. -/
def circuitBreakerAllowsRequest (b : CircuitBreakerState) (now : ℚ) :
    Bool × CircuitBreakerState :=
  if b.state = "closed" then
    (true, b)
  else if b.state = "open" then
    match b.next_attempt_time with
    | some t => if t ≤ now then (true, { b with state := "half_open" }) else (false, b)
    | none => (false, b)
  else if b.state = "half_open" then
    (true, b)
  else
    (false, b)

/-- `ErrorRecoveryService._reset_circuit_breaker` (lines 374-380). -/
def resetCircuitBreaker (b : CircuitBreakerState) : CircuitBreakerState :=
  { b with failure_count := 0, state := "closed", next_attempt_time := none }

/-- `n` consecutive recorded failures (`_update_circuit_breaker` applied
`n` times, at times `times 0, times 1, ...`). -/
def failN : ℕ → (ℕ → ℚ) → CircuitBreakerState → CircuitBreakerState
  | 0, _, b => b
  | n + 1, times, b => updateCircuitBreaker (failN n times b) (times n)

/-- A breaker that has been open since time 40 with `next_attempt_time`
100, used to instantiate the C2 theorem. -/
def openBreaker100 : CircuitBreakerState :=
  { failure_count := 5, last_failure_time := some 40, state := "open",
    next_attempt_time := some 100, failure_threshold := 5, recovery_timeout := 60 }

/-! ## models/schemas.py : error model -/

/-- `ErrorType` enum exactly as declared (schemas.py lines 248-256).  The
members `AUTHENTICATION_ERROR`, `PERMISSION_ERROR`, `RESOURCE_NOT_FOUND`
and `RATE_LIMIT_ERROR` that other parts of the source refer to are *not*
declared; evaluating such a reference raises `AttributeError` in Python. -/
inductive ErrorType where
  | VALIDATION_ERROR
  | SESSION_NOT_FOUND
  | SERVICE_UNAVAILABLE
  | TOOL_EXECUTION_ERROR
  | RATE_LIMIT_EXCEEDED
  | NETWORK_ERROR
  | INTERNAL_ERROR
  | PRIVACY_BLOCK
deriving DecidableEq, Repr

/-- All members of `ErrorType`. -/
def allErrorTypes : List ErrorType :=
  [.VALIDATION_ERROR, .SESSION_NOT_FOUND, .SERVICE_UNAVAILABLE, .TOOL_EXECUTION_ERROR,
   .RATE_LIMIT_EXCEEDED, .NETWORK_ERROR, .INTERNAL_ERROR, .PRIVACY_BLOCK]

/-- `ErrorSeverity` enum (schemas.py lines 259-263). -/
inductive ErrorSeverity where
  | LOW
  | MEDIUM
  | HIGH
  | CRITICAL
deriving DecidableEq, Repr

/-- `RecoveryAction` model (schemas.py lines 312-321). -/
structure RecoveryAction where
  action_type : String
  description : String
  auto_executable : Bool := false
  priority : ℕ := 1
  estimated_duration : Option ℕ := none
deriving DecidableEq, Repr

/-- `ErrorContext` model (schemas.py lines 300-310); times in seconds. -/
structure ErrorContext where
  operation : String
  session_id : Option String := none
  retry_count : ℕ := 0
  last_success_time : Option ℚ := none
  device_state : Option String := none
  network_state : Option String := none
deriving DecidableEq, Repr

/-- `EnhancedErrorResponse` model (schemas.py lines 323-330 plus the
inherited `ErrorResponse` fields that the claims inspect; the wall-clock
`timestamp` default is not modelled). -/
structure EnhancedErrorResponse where
  error_type : ErrorType
  severity : ErrorSeverity
  message : String
  details : Option String := none
  context : Option ErrorContext := none
  recovery_actions : List RecoveryAction := []
  user_message : Option String := none
deriving DecidableEq, Repr

/-! ## error_recovery_service.py : classification, severity, retry -/

/-- Substring occurrence on character lists: `n` occurs in `h` iff it is
a prefix of some suffix. -/
def substrAux (n : List Char) : List Char → Bool
  | [] => n.isEmpty
  | c :: t => n.isPrefixOf (c :: t) || substrAux n t

/-- Python `needle in haystack` on strings. -/
def pyIn (needle haystack : String) : Bool :=
  substrAux needle.toList haystack.toList

/-- Python `s.lower()`: lowercase each character (all the strings the
classifier inspects are ASCII). -/
def pyLower (s : String) : String :=
  String.mk (s.data.map Char.toLower)

deriving instance DecidableEq for Except

/-- `ErrorRecoveryService._classify_error` (lines 234-252): substring
matching on the lowercased message.  The `auth`/`permission`,
`not found`/`404` and `rate limit`/`429` branches return
`ErrorType.AUTHENTICATION_ERROR`, `ErrorType.RESOURCE_NOT_FOUND` and
`ErrorType.RATE_LIMIT_ERROR`, none of which exist on the `ErrorType` enum,
so reaching those branches raises `AttributeError`.  (The unused local
`error_type = type(error).__name__.lower()` is not modelled.) -/
def classifyError (errorMsg : String) : Except String ErrorType :=
  let s := pyLower errorMsg
  if pyIn "network" s || pyIn "connection" s then
    .ok .NETWORK_ERROR
  else if pyIn "auth" s || pyIn "permission" s then
    .error "AttributeError: ErrorType has no attribute AUTHENTICATION_ERROR"
  else if pyIn "validation" s || pyIn "invalid" s then
    .ok .VALIDATION_ERROR
  else if pyIn "not found" s || pyIn "404" s then
    .error "AttributeError: ErrorType has no attribute RESOURCE_NOT_FOUND"
  else if pyIn "rate limit" s || pyIn "429" s then
    .error "AttributeError: ErrorType has no attribute RATE_LIMIT_ERROR"
  else if pyIn "service unavailable" s || pyIn "503" s then
    .ok .SERVICE_UNAVAILABLE
  else
    .ok .INTERNAL_ERROR

/-- `ErrorRecoveryService._determine_severity` (lines 254-263): an attempt
count of 3 or more returns CRITICAL before anything else is evaluated; for
smaller counts the `elif error_type in [ErrorType.AUTHENTICATION_ERROR,
ErrorType.PERMISSION_ERROR]` test evaluates two enum members that do not
exist, raising `AttributeError` for every error type. -/
def determineSeverity (_errorType : ErrorType) (attemptCount : ℕ) :
    Except String ErrorSeverity :=
  if 3 ≤ attemptCount then
    .ok .CRITICAL
  else
    .error "AttributeError: ErrorType has no attribute AUTHENTICATION_ERROR"

/-- `EnhancedErrorResponse._generate_recovery_actions` (schemas.py lines
361-447): the `if` arm for `NETWORK_ERROR` succeeds, but every other error
type reaches `elif error_type == ErrorType.AUTHENTICATION_ERROR`, whose
right-hand side is a missing enum member. -/
def generateRecoveryActions (errorType : ErrorType) : Except String (List RecoveryAction) :=
  if errorType = .NETWORK_ERROR then
    .ok [ { action_type := "retry_with_backoff",
            description := "Retry the operation with exponential backoff",
            auto_executable := true, priority := 5, estimated_duration := some 30 },
          { action_type := "check_connectivity",
            description := "Check network connectivity",
            auto_executable := true, priority := 4, estimated_duration := some 5 },
          { action_type := "switch_to_offline_mode",
            description := "Switch to offline mode",
            auto_executable := true, priority := 2, estimated_duration := some 1 } ]
  else
    .error "AttributeError: ErrorType has no attribute AUTHENTICATION_ERROR"

/-- `EnhancedErrorResponse._generate_user_message` (schemas.py lines
449-462): the `messages` dict literal evaluates all of its keys first, and
its second key is the missing member `ErrorType.AUTHENTICATION_ERROR`, so
the function raises `AttributeError` for every input. -/
def generateUserMessage (_errorType : ErrorType) (_operation : String) :
    Except String String :=
  .error "AttributeError: ErrorType has no attribute AUTHENTICATION_ERROR"

/-- `EnhancedErrorResponse.create_with_recovery` (schemas.py lines
332-359), called with `recovery_actions = None` and `user_message = None`
as `handle_error_with_recovery` does, so both generators run (in argument
order: recovery actions first, then the user message). -/
def createWithRecovery (errorType : ErrorType) (severity : ErrorSeverity)
    (message operation : String) (sessionId : Option String) (retryCount : ℕ) :
    Except String EnhancedErrorResponse := do
  let context : ErrorContext :=
    { operation := operation, session_id := sessionId, retry_count := retryCount,
      last_success_time := none }
  let actions ← generateRecoveryActions errorType
  let userMsg ← generateUserMessage errorType operation
  pure { error_type := errorType, severity := severity, message := message,
         context := some context, recovery_actions := actions,
         user_message := some userMsg }

/-- `ErrorRecoveryService.handle_error_with_recovery` (lines 79-141) on
the `auto_recover = False` path used by `retry_operation` exhaustion:
classify, determine severity, build the enhanced response.
`attemptCount` is the operation context attempt count after the increment
at line 98 (1 for a fresh context).  The later steps of the Python body
(appending to `context.errors`, `_update_circuit_breaker`,
`_update_system_health`, logging, returning the response) come after the
construction above, which always raises first, so they are unreachable
and the circuit breaker is left untouched on this path. -/
def handleErrorWithRecovery (errMsg operation : String) (sessionId : Option String)
    (attemptCount : ℕ) : Except String EnhancedErrorResponse := do
  let errorType ← classifyError errMsg
  let severity ← determineSeverity errorType attemptCount
  let resp ← createWithRecovery errorType severity errMsg operation sessionId attemptCount
  pure resp

/-- `RecoveryStrategy` enum (error_recovery_service.py lines 20-27). -/
inductive RecoveryStrategy where
  | EXPONENTIAL_BACKOFF
  | CIRCUIT_BREAKER
  | RETRY_WITH_JITTER
  | GRACEFUL_DEGRADATION
  | FAILOVER
  | HEALTH_CHECK_RECOVERY
deriving DecidableEq, Repr

/-- `RetryConfig` dataclass (error_recovery_service.py lines 30-38). -/
structure RetryConfig where
  max_attempts : ℕ := 3
  base_delay : ℚ := 1
  max_delay : ℚ := 60
  exponential_base : ℚ := 2
  jitter : Bool := true
  backoff_strategy : RecoveryStrategy := .EXPONENTIAL_BACKOFF
deriving DecidableEq, Repr

/-- `ErrorRecoveryService._calculate_retry_delay` (lines 325-337).
`attempt` is the 0-based loop index of the attempt that just failed, `r`
models the value returned by `random.random()` (a rational in [0,1));
`r` is only read when `config.jitter` is set. -/
def calculateRetryDelay (attempt : ℕ) (config : RetryConfig) (r : ℚ) : ℚ :=
  let delay :=
    if config.backoff_strategy = .EXPONENTIAL_BACKOFF then
      min (config.base_delay * config.exponential_base ^ attempt) config.max_delay
    else
      config.base_delay
  if config.jitter then delay * (1/2 + r * (1/2)) else delay

/-- The loop body of `ErrorRecoveryService.retry_operation` (lines
143-187).  `remaining + 1` is the number of attempts still available
including the current one, `attempt` the current 0-based index, `op` the
outcome of invoking the wrapped operation on each attempt, `times` the
clock at each attempt.  Per iteration: the circuit breaker is consulted
(possibly mutating it open → half_open); a refusal raises
`Exception("Circuit breaker open for ...")` inside the `try`, which the
`except` treats like an operation failure; a success resets the breaker
(and drops the operation context) and returns the operation result; a
failure on the final attempt returns whatever
`handle_error_with_recovery(..., auto_recover=False)` produces, and on
earlier attempts the loop sleeps `_calculate_retry_delay` and retries. -/
def retryOperationGo (op : ℕ → Except String α) (operationName : String)
    (times : ℕ → ℚ) (ctxAttemptCount : ℕ) :
    ℕ → ℕ → CircuitBreakerState →
    Except String (Option (α ⊕ EnhancedErrorResponse)) × CircuitBreakerState
  | 0, _, b => (.ok none, b)
  | remaining + 1, attempt, b =>
    let allowed := circuitBreakerAllowsRequest b (times attempt)
    match (if allowed.1 then op attempt
           else .error ("Circuit breaker open for " ++ operationName)) with
    | .ok result => (.ok (some (.inl result)), resetCircuitBreaker allowed.2)
    | .error e =>
      if remaining = 0 then
        match handleErrorWithRecovery e operationName none ctxAttemptCount with
        | .ok resp => (.ok (some (.inr resp)), allowed.2)
        | .error pyErr => (.error pyErr, allowed.2)
      else
        retryOperationGo op operationName times ctxAttemptCount remaining (attempt + 1) allowed.2

/-- `ErrorRecoveryService.retry_operation`: run the loop with
`config.max_attempts` attempts available (a `range(0)` loop falls through
and Python returns `None`, hence the `Option` in the result). -/
def retryOperation (op : ℕ → Except String α) (operationName : String)
    (times : ℕ → ℚ) (maxAttempts ctxAttemptCount : ℕ) (b : CircuitBreakerState) :
    Except String (Option (α ⊕ EnhancedErrorResponse)) × CircuitBreakerState :=
  retryOperationGo op operationName times ctxAttemptCount maxAttempts 0 b

/-! ## models/schemas.py : session and frame data model -/

/-- `SessionType` enum. -/
inductive SessionType where
  | TIME
  | MANUAL
  | ACTIVITY
deriving DecidableEq, Repr

/-- `MediaType` enum; string values `text`, `text+image`, `short-video`,
`long-video`, `audio`. -/
inductive MediaType where
  | text
  | text_image
  | short_video
  | long_video
  | audio
deriving DecidableEq, Repr

/-- `SessionTypeConfig` model. -/
structure SessionTypeConfig where
  type : SessionType
  minutes : Option ℕ := none
deriving DecidableEq, Repr

/-- `NotificationSettings` model. -/
structure NotificationSettings where
  details : Bool := true
  links : Bool := true
deriving DecidableEq, Repr

/-- `SessionSettings` model.  The Python field is `session_type` with JSON
alias `sessionType`; a pydantic v2 instance exposes only the field name as
an attribute. -/
structure SessionSettings where
  session_type : SessionTypeConfig
  strictness : ℚ
  notify : NotificationSettings
deriving DecidableEq, Repr

/-- `TimelineEvent` model (schemas.py lines 113-115): only the fields `t`
(an `mm:ss` string) and `event`.  There is no `timestamp` field, and a
pydantic model has no `.get` method. -/
structure TimelineEvent where
  t : String
  event : String
deriving DecidableEq, Repr

/-- `CurrentActivity` model. -/
structure CurrentActivity where
  id : String
  app : String
  media : MediaType
  desc : String
deriving DecidableEq, Repr

/-- `PastContent` model. -/
structure PastContent where
  app : String
  media : MediaType
  desc : String
  has_video : Bool
  has_audio : Bool
  publisher : Option String := none
  topic : Option String := none
  context_notes : String
deriving DecidableEq, Repr

/-- `LastClaimChecked` model. -/
structure LastClaimChecked where
  claim : String
  status : ClaimLabel
  sources : List Source := []
deriving DecidableEq, Repr

/-- `SessionMemory` model; the `past_contents` dict is modelled as an
association list. -/
structure SessionMemory where
  settings : SessionSettings
  timeline : List TimelineEvent := []
  current_activity : Option CurrentActivity := none
  past_contents : List (String × PastContent) := []
  last_claims_checked : List LastClaimChecked := []
deriving DecidableEq, Repr

/-- `MediaHints` model. -/
structure MediaHints where
  has_text : Bool := true
  has_image : Bool := false
  has_video : Bool := false
deriving DecidableEq, Repr

/-- `TreeNode` model. -/
structure TreeNode where
  role : String
  text : String
deriving DecidableEq, Repr

/-- `TreeSummary` model. -/
structure TreeSummary where
  app_package : String
  app_readable_name : String
  media_hints : MediaHints
  top_nodes : List TreeNode := []
  url_or_channel_guess : Option String := none
  publisher_guess : Option String := none
  topic_guesses : List String := []
  confidence : ℚ
deriving DecidableEq, Repr

/-- `DeviceHints` model. -/
structure DeviceHints where
  battery : ℚ
  power_saver : Bool
deriving DecidableEq, Repr

/-- `FrameBundle` model; the timestamp is seconds since session start. -/
structure FrameBundle where
  session_id : String
  timestamp : ℚ
  tree_summary : TreeSummary
  ocr_text : String
  has_image : Bool
  image_ref : Option String := none
  audio_transcript_delta : String
  device_hints : DeviceHints
deriving DecidableEq, Repr

/-! ## session_service.py : SessionManager -/

/-- `first_event.get("timestamp")` (session_service.py line 254):
`TimelineEvent` is a pydantic model with fields `t` and `event`; it has no
`.get` method, so the call raises `AttributeError` (it would return the
`Option` only if timeline entries were plain dicts). -/
def timelineEventGetTimestamp (_e : TimelineEvent) : Except String (Option ℚ) :=
  .error "AttributeError: TimelineEvent object has no attribute get"

/-- `event.get("timestamp", current_time)` (lines 226 and 277): same
`AttributeError`; the default argument is never used. -/
def timelineEventGetTimestampD (_e : TimelineEvent) (_default : ℚ) : Except String ℚ :=
  .error "AttributeError: TimelineEvent object has no attribute get"

/-- `SessionManager.should_end_session` (session_service.py lines
241-311), faithful embedding.  Line 243 reads `session_memory.settings`
(a field name — fine); line 245 then evaluates `settings.sessionType`,
an alias attribute access on a pydantic v2 model, which raises
`AttributeError` before any branch of the body runs, so the call raises
for every input and the memory is never touched.  See
`shouldEndSessionFieldSemantics` for the counterfactual in which alias
reads resolve to the underlying fields. -/
def shouldEndSession (m : SessionMemory) (_f : FrameBundle) :
    Except String Bool × SessionMemory :=
  (.error "AttributeError: SessionSettings object has no attribute sessionType", m)

/-- The `try` block of the TIME branch (lines 250-263) under field-name
attribute semantics: with a non-`None`, non-zero `minutes` and a non-empty
timeline, read `timeline[0].get("timestamp")` (which raises, see
`timelineEventGetTimestamp`); were a start time obtained, the branch
would return whether `(timestamp - start) / 60 ≥ minutes`. -/
def shouldEndSessionTimeCheck (m : SessionMemory) (f : FrameBundle) : Except String Bool :=
  match m.settings.session_type.minutes, m.timeline with
  | some mins, firstEvent :: _ =>
    if mins = 0 then .ok false
    else
      match timelineEventGetTimestamp firstEvent with
      | .error err => .error err
      | .ok (some startTime) =>
        .ok (decide ((mins : ℚ) ≤ (f.timestamp - startTime) / 60))
      | .ok none => .ok false
  | _, _ => .ok false

/-- The `try` block of the ACTIVITY branch (lines 272-306) under
field-name attribute semantics, entered only with a current activity and
a non-empty timeline.  Its first statement builds `recent_timeline` by
evaluating `event.get("timestamp", current_time)` on the trailing
timeline entries, which raises on the first entry, so the rest of the
branch — the `currentActivity.get("app")` comparison, the in-place
reassignment `session_memory.currentActivity = {...}` at line 284, and
the 90 s stability / 60 s content checks — is unreachable dead code and
the memory is returned unchanged. -/
def shouldEndSessionActivityCheck (m : SessionMemory) (f : FrameBundle) :
    Except String (Bool × SessionMemory) :=
  match m.timeline with
  | [] => .ok (false, m)
  | e :: _ =>
    match timelineEventGetTimestampD e f.timestamp with
    | .error err => .error err
    | .ok _ => .ok (false, m)

/-- `should_end_session` under the counterfactual semantics in which an
alias attribute read resolves to the underlying field.  MANUAL returns
False; the TIME branch swallows any exception of its `try` block (lines
265-266) and falls through to `return False`; the ACTIVITY branch
likewise swallows (lines 308-309).  Even in this charitable reading the
function returns False on every input and never mutates the memory. -/
def shouldEndSessionFieldSemantics (m : SessionMemory) (f : FrameBundle) :
    Bool × SessionMemory :=
  match m.settings.session_type.type with
  | .MANUAL => (false, m)
  | .TIME =>
    match shouldEndSessionTimeCheck m f with
    | .ok true => (true, m)
    | .ok false => (false, m)
    | .error _ => (false, m)
  | .ACTIVITY =>
    match m.current_activity, m.timeline with
    | some _, _ :: _ =>
      match shouldEndSessionActivityCheck m f with
      | .ok r => r
      | .error _ => (false, m)
    | _, _ => (false, m)

/-- `SessionManager.cleanup_expired_sessions` (lines 204-239), faithful
embedding of the per-session expiry check: the `try` block's first
expression `memory.settings.sessionType.type` is an alias attribute
access and raises `AttributeError`, and the `except` handler (lines
231-234, "Add problematic sessions to expired list") appends the session
to `expired_sessions`.  Hence every session is marked expired. -/
def cleanupMarksExpired (_m : SessionMemory) (_now : ℚ) : Bool :=
  true

/-- The expiry sweep over the in-memory session table: every marked
session id is deleted (`delete_session`). -/
def cleanupExpiredSessions (sessions : List (String × SessionMemory)) (now : ℚ) :
    List String :=
  (sessions.filter (fun p => cleanupMarksExpired p.2 now)).map Prod.fst

/-- The per-session expiry check under field-name attribute semantics:
the TIME sub-check reads `timeline[0].get("timestamp")` (raises on a
non-empty timeline) and would compare `(now - start)/60 > minutes`; the
inactivity sub-check reads `timeline[-1].get("timestamp", now)` (raises
on a non-empty timeline) and would compare `(now - last)/3600 > 24`.  An
exception anywhere in the `try` marks the session expired. -/
def cleanupCheckFieldSemantics (m : SessionMemory) (now : ℚ) : Except String Bool :=
  let timeExpired : Except String Bool :=
    match m.settings.session_type.type, m.settings.session_type.minutes, m.timeline with
    | .TIME, some mins, firstEvent :: _ =>
      if mins = 0 then .ok false
      else
        match timelineEventGetTimestamp firstEvent with
        | .error err => .error err
        | .ok (some startTime) => .ok (decide ((mins : ℚ) < (now - startTime) / 60))
        | .ok none => .ok false
    | _, _, _ => .ok false
  match timeExpired with
  | .error err => .error err
  | .ok b1 =>
    match m.timeline with
    | [] => .ok b1
    | e :: rest =>
      match timelineEventGetTimestampD (List.getLastD (e :: rest) e) now with
      | .error err => .error err
      | .ok lastActivity => .ok (b1 || decide ((24 : ℚ) < (now - lastActivity) / 3600))

/-- Expiry marking under field-name attribute semantics: a raised check
means expired. -/
def cleanupMarksExpiredFieldSemantics (m : SessionMemory) (now : ℚ) : Bool :=
  match cleanupCheckFieldSemantics m now with
  | .ok b => b
  | .error _ => true

/-- The expiry sweep under field-name attribute semantics. -/
def cleanupExpiredSessionsFieldSemantics (sessions : List (String × SessionMemory))
    (now : ℚ) : List String :=
  (sessions.filter (fun p => cleanupMarksExpiredFieldSemantics p.2 now)).map Prod.fst

/-- A TIME session with `minutes = 60` and one timeline entry (in the
schema format: `t`/`event` only, no timestamp). -/
def memTime60 : SessionMemory :=
  { settings :=
      { session_type := { type := .TIME, minutes := some 60 },
        strictness := 1/2,
        notify := {} },
    timeline := [{ t := "00:00", event := "Session started" }] }

/-- A MANUAL session with the same shape. -/
def memManual : SessionMemory :=
  { settings :=
      { session_type := { type := .MANUAL },
        strictness := 1/2,
        notify := {} },
    timeline := [{ t := "00:00", event := "Session started" }] }

/-- A frame arriving 61 minutes (3660 s) after session start. -/
def frame61 : FrameBundle :=
  { session_id := "session-1",
    timestamp := 3660,
    tree_summary :=
      { app_package := "com.example.news", app_readable_name := "News",
        media_hints := {}, confidence := 9/10 },
    ocr_text := "headline",
    has_image := false,
    audio_transcript_delta := "",
    device_hints := { battery := 8/10, power_saver := false } }

/-- A frame arriving 59 minutes (3540 s) after session start. -/
def frame59 : FrameBundle :=
  { frame61 with timestamp := 3540 }

/-! ## bedrock_service.py : routing validation -/

/-- The `agentContext` payload handed to
`_validate_and_construct_agent_context`: a JSON object with the keys the
validator and the pydantic constructors look at (`Dict[str, Any]` payload
values are modelled as string association lists; absent key = `none`).
`contextType` is the tag the payload arrived with — the validator
overwrites it. -/
structure RawAgentContext where
  contextType : Option String := none
  context : Option (List (String × String)) := none
  ocrText : Option String := none
  hints : Option (List (String × String)) := none
  imageRef : Option String := none
  transcriptDelta : Option String := none
deriving DecidableEq, Repr

/-- The validated polymorphic `AgentContext` union
(`AgentContext` | `TextImageAgentContext` | `VideoAgentContext`), with
`context_type` tags `text` / `text_image` / `video`. -/
inductive AgentContextU where
  | text (context : List (String × String)) (ocrText : String)
      (hints : List (String × String))
  | textImage (context : List (String × String)) (ocrText : String)
      (hints : List (String × String)) (imageRef : String)
  | video (context : List (String × String)) (ocrText : String)
      (hints : List (String × String)) (transcriptDelta : String)
deriving DecidableEq, Repr

/-- The `context_type` discriminator value of a constructed context. -/
def contextTagOf : AgentContextU → String
  | .text _ _ _ => "text"
  | .textImage _ _ _ _ => "text_image"
  | .video _ _ _ _ => "video"

/-- `ManagerAgent._validate_and_construct_agent_context` (bedrock_service
lines 234-262).  The incoming `contextType` tag is ignored: the function
*sets* `contextType` from the route and then constructs the route's
pydantic model.  For `text+image` it first requires the `imageRef` *key*
(present, possibly empty); for the video routes the `transcriptDelta`
key; for `text` nothing extra — stray image/video keys are silently
ignored by pydantic (`extra` defaults to ignore).  Construction itself
raises `ValidationError` when the required `context` or `ocrText` fields
are missing (`hints` defaults to an empty dict).  Any other route —
including `none`, which reaches this function whenever a truthy
`agentContext` accompanies it, and `audio` — raises `ValueError`. -/
def validateAndConstructAgentContext (route : String) (d : RawAgentContext) :
    Except String AgentContextU :=
  if route = "text+image" then
    match d.imageRef with
    | none => .error "ValueError: TEXT_IMAGE route requires imageRef field in agent context"
    | some img =>
      match d.context, d.ocrText with
      | some c, some o => .ok (.textImage c o (d.hints.getD []) img)
      | _, _ => .error "ValidationError: missing required field"
  else if route = "short-video" ∨ route = "long-video" then
    match d.transcriptDelta with
    | none => .error "ValueError: VIDEO route requires transcriptDelta field in agent context"
    | some td =>
      match d.context, d.ocrText with
      | some c, some o => .ok (.video c o (d.hints.getD []) td)
      | _, _ => .error "ValidationError: missing required field"
  else if route = "text" then
    match d.context, d.ocrText with
    | some c, some o => .ok (.text c o (d.hints.getD []))
    | _, _ => .error "ValidationError: missing required field"
  else
    .error "ValueError: invalid route for agent context construction"

/-- A payload that arrived tagged `video` (with a transcript delta and an
image reference) — a mismatched tag for a `text` route. -/
def rawCtxVideoTagged : RawAgentContext :=
  { contextType := some "video",
    context := some [("summary", "clip about vaccines")],
    ocrText := some "caption text",
    transcriptDelta := some "spoken words",
    imageRef := some "s3://bucket/frame.jpg" }

/-- A payload for `text+image` whose image reference is the empty
string. -/
def rawCtxEmptyImage : RawAgentContext :=
  { contextType := some "text_image",
    context := some [],
    ocrText := some "caption",
    imageRef := some "" }

/-! ## bedrock_service.py : AgentOrchestrator -/

/-- `NotificationColor` enum. -/
inductive NotificationColor where
  | green
  | yellow
  | red
deriving DecidableEq, Repr

/-- `NotificationPayload` model. -/
structure NotificationPayload where
  color : NotificationColor
  short_text : String
  details : Option String := none
  sources : List Source := []
  confidence : ℚ
  severity : ℚ
  should_notify : Bool
deriving DecidableEq, Repr

/-- The `route` field of `ManagerResponse`
(`Union[MediaType, Literal["none"]]`). -/
inductive Route where
  | text
  | textImage
  | shortVideo
  | longVideo
  | audio
  | noneR
deriving DecidableEq, Repr

/-- `ManagerResponse` model. -/
structure ManagerResponse where
  updated_memory : SessionMemory
  route : Route
  agent_context : Option AgentContextU := none
  end_session : Bool
  notifications : List NotificationPayload := []
deriving DecidableEq, Repr

/-- Python `f"{x}"` on an optional string: `None` prints as "None". -/
def pyStrOfOptionString : Option String → String
  | some s => s
  | none => "None"

/-- The synthesis-update block of `AgentOrchestrator.process_frame`
(bedrock_service.py lines 624-643), applied when the parsed synthesis
payload contains a `response` text: escalate yellow notifications to red
(prefixing the warning sign) when the lowercased text mentions `urgent`
or `false`, then append the fact-check summary to the first
notification's details (an absent `details` prints as "None" through the
f-string) and extend its sources. -/
def applySynthesisText (mr : ManagerResponse) (fc : FactCheckResult)
    (synthesisText : String) : ManagerResponse :=
  let notifications :=
    if pyIn "urgent" (pyLower synthesisText) || pyIn "false" (pyLower synthesisText) then
      mr.notifications.map (fun n =>
        if n.color = .yellow then
          { n with color := .red, short_text := "⚠️ " ++ n.short_text }
        else n)
    else
      mr.notifications
  match notifications with
  | [] => { mr with notifications := notifications }
  | first :: rest =>
    let newDetails := pyStrOfOptionString first.details ++ "\n\nFact-check: " ++ fc.summary
    let first :=
      if fc.summary ≠ "" then { first with details := some newDetails }
      else first
    let first :=
      if fc.sources ≠ [] then { first with sources := first.sources ++ fc.sources }
      else first
    { mr with notifications := first :: rest }

/-- `AgentOrchestrator.process_frame` (bedrock_service.py lines 578-653)
after the Manager step, with the two external model calls as parameters:
`factCheck` is the dispatched media agent's `fact_check` (which already
applies the strictness filter and raises on a context/agent type
mismatch), `synthesize` the synthesis model call returning the optional
`response` field of its payload.  If the route is `none` or no context is
attached, the manager response is returned as is.  The media-agent call
and the synthesis call are wrapped in `try`/`except` blocks whose
handlers print and continue with the manager response; an `audio` route
matches no dispatch arm, leaves `fact_check_result = None` and skips
synthesis. -/
def orchestratorProcessFrame (mr : ManagerResponse)
    (factCheck : Route → AgentContextU → Except String FactCheckResult)
    (synthesize : ManagerResponse → FactCheckResult → Except String (Option String)) :
    ManagerResponse :=
  match mr.route, mr.agent_context with
  | .noneR, _ => mr
  | _, none => mr
  | route, some ctx =>
    let fcOutcome : Option (Except String FactCheckResult) :=
      if route = .text then some (factCheck .text ctx)
      else if route = .textImage then some (factCheck .textImage ctx)
      else if route = .shortVideo ∨ route = .longVideo then some (factCheck route ctx)
      else none
    match fcOutcome with
    | none => mr
    | some (.error _) => mr
    | some (.ok fc) =>
      match synthesize mr fc with
      | .error _ => mr
      | .ok none => mr
      | .ok (some text) => applySynthesisText mr fc text

/-! ## Theorems -/

theorem applyStrictnessFilter_claims (r : FactCheckResult) (s : ℚ) :
    (applyStrictnessFilter r s).claims
      = r.claims.filter (fun c => passesStrictness c (strictnessThresholdsGet s)) := rfl

/-- If one threshold entry is pointwise at least as demanding as another,
every claim passing the demanding entry passes the relaxed one.  This is
the monotonicity core used for the on-table part of C1. -/
theorem passesStrictness_mono (th₁ th₂ : ThresholdEntry)
    (hconf : th₂.min_confidence ≤ th₁.min_confidence)
    (hsrc : th₂.min_sources ≤ th₁.min_sources)
    (htc : th₁.tier_c_allowed = true → th₂.tier_c_allowed = true)
    (c : Claim) (h : passesStrictness c th₁ = true) : passesStrictness c th₂ = true := by
  unfold passesStrictness at h ⊢
  rw [Bool.and_eq_true] at h ⊢
  obtain ⟨hc, hs⟩ := h
  refine ⟨decide_eq_true ?_, ?_⟩
  · exact le_trans hconf (of_decide_eq_true hc)
  · unfold validateSources at hs ⊢
    by_cases h2 : th₂.min_sources = 0
    · simp [h2]
    · have h1 : ¬ th₁.min_sources = 0 := by omega
      simp only [h1, if_false] at hs
      simp only [h2, if_false]
      by_cases hab :
          1 ≤ (c.sources.filter (fun s => decide (s.tier = SourceTier.A))).length ∨
          1 ≤ (c.sources.filter (fun s => decide (s.tier = SourceTier.B))).length
      · simp [hab]
      · simp only [hab, if_false] at hs
        simp only [hab, if_false]
        by_cases hcc :
            th₁.tier_c_allowed ∧
            th₁.min_sources ≤ (c.sources.filter (fun s => decide (s.tier = SourceTier.C))).length
        · have : th₂.tier_c_allowed ∧
              th₂.min_sources ≤ (c.sources.filter (fun s => decide (s.tier = SourceTier.C))).length := by
            exact ⟨htc hcc.1, le_trans hsrc hcc.2⟩
          simp [this]
        · simp [hcc] at hs

/-- The pointwise-demanding relation between entries of the table, checked
for every ordered pair of keys. -/
theorem strictnessTable_mono :
    ∀ s₁ ∈ strictnessKeys, ∀ s₂ ∈ strictnessKeys, s₁ < s₂ →
      (strictnessThresholdsGet s₂).min_confidence ≤ (strictnessThresholdsGet s₁).min_confidence ∧
      (strictnessThresholdsGet s₂).min_sources ≤ (strictnessThresholdsGet s₁).min_sources ∧
      ((strictnessThresholdsGet s₁).tier_c_allowed = true →
        (strictnessThresholdsGet s₂).tier_c_allowed = true) := by
  intro s₁ h₁ s₂ h₂ h
  fin_cases h₁ <;> fin_cases h₂ <;>
    norm_num [strictnessThresholdsGet] at h ⊢

/-- C1 (amended): on the keys of `STRICTNESS_THRESHOLDS`, the strictness
filter is monotone — for key strictness values s₁ < s₂ the claims retained
at s₁ are also retained at s₂, and the applied `min_confidence` threshold
at s₁ is at least the one applied at s₂. -/
theorem strictness_filter_monotone_on_table_keys (s₁ s₂ : ℚ)
    (h₁ : s₁ ∈ strictnessKeys) (h₂ : s₂ ∈ strictnessKeys) (h : s₁ < s₂) :
    (strictnessThresholdsGet s₂).min_confidence ≤ (strictnessThresholdsGet s₁).min_confidence ∧
    ∀ (r : FactCheckResult) (c : Claim),
      c ∈ (applyStrictnessFilter r s₁).claims → c ∈ (applyStrictnessFilter r s₂).claims := by
  obtain ⟨hconf, hsrc, htc⟩ := strictnessTable_mono s₁ h₁ s₂ h₂ h
  refine ⟨hconf, ?_⟩
  intro r c hc
  rw [applyStrictnessFilter_claims] at hc ⊢
  rw [List.mem_filter] at hc ⊢
  exact ⟨hc.1, passesStrictness_mono _ _ hconf hsrc htc c hc.2⟩

/-- C1 witness: the amended theorem applied at the concrete keys 0 and 1. -/
theorem strictness_filter_monotone_on_table_keys_witness :
    (0:ℚ) ∈ strictnessKeys ∧ (1:ℚ) ∈ strictnessKeys ∧ (0:ℚ) < 1 ∧
    ((strictnessThresholdsGet 1).min_confidence ≤ (strictnessThresholdsGet 0).min_confidence ∧
     ∀ (r : FactCheckResult) (c : Claim),
       c ∈ (applyStrictnessFilter r 0).claims → c ∈ (applyStrictnessFilter r 1).claims) :=
  ⟨by norm_num [strictnessKeys], by norm_num [strictnessKeys], by norm_num,
   strictness_filter_monotone_on_table_keys 0 1 (by norm_num [strictnessKeys])
     (by norm_num [strictnessKeys]) (by norm_num)⟩

/-- C1 counterexample: the claim as stated fails off the table keys.  For
s₁ = 0.3 < s₂ = 0.4 (both in [0,1]) the dict lookup for 0.3 falls back to
the 0.5 entry, so min_confidence(0.3) = 0.70 < 0.75 = min_confidence(0.4),
and a fact-check result whose sole claim has confidence 0.72 with a tier-A
source is retained at strictness 0.3 but dropped at strictness 0.4. -/
theorem strictness_filter_not_monotone_at_point_three :
    (0:ℚ) ≤ 3/10 ∧ (3:ℚ)/10 < 2/5 ∧ (2:ℚ)/5 ≤ 1 ∧
    (applyStrictnessFilter factCheck072 (3/10)).claims = [claim072] ∧
    (applyStrictnessFilter factCheck072 (2/5)).claims = [] ∧
    (strictnessThresholdsGet (3/10)).min_confidence <
      (strictnessThresholdsGet (2/5)).min_confidence := by
  refine ⟨by norm_num, by norm_num, by norm_num, ?_, ?_, ?_⟩
  · norm_num [applyStrictnessFilter, strictnessThresholdsGet, factCheck072,
      validateSources, claim072, List.filter]
  · norm_num [applyStrictnessFilter, strictnessThresholdsGet, factCheck072,
      validateSources, claim072, List.filter]
  · norm_num [strictnessThresholdsGet]

/-- After `n` recorded failures from a fresh breaker: the count is `n`,
the configuration fields are unchanged, and the state is open exactly when
`n` has reached the threshold 5. -/
theorem failN_fresh (times : ℕ → ℚ) (n : ℕ) :
    (failN n times freshBreaker).failure_count = n ∧
    (failN n times freshBreaker).failure_threshold = 5 ∧
    (failN n times freshBreaker).recovery_timeout = 60 ∧
    (failN n times freshBreaker).state = (if 5 ≤ n then "open" else "closed") := by
  induction n with
  | zero => simp [failN, freshBreaker]
  | succ n ih =>
    obtain ⟨hc, ht, hr, hs⟩ := ih
    by_cases h5 : 5 ≤ n + 1
    · simp [failN, updateCircuitBreaker, hc, ht, hr, h5]
    · have hn : ¬ 5 ≤ n := by omega
      simp only [hn, if_false] at hs
      simp [failN, updateCircuitBreaker, hc, ht, hr, h5, hs]

/-- C2 (amended): the per-operation circuit breaker state machine as
implemented.  After exactly `failure_threshold = 5` consecutive recorded
failures the breaker is open (and closed for fewer); while open, a request
before `next_attempt_time` is refused with the breaker unchanged (so the
operation is not invoked), and once `next_attempt_time` is reached the
first allowed request moves the breaker to half_open; while half_open,
every request is allowed with the breaker unchanged (not exactly one —
see the counterexample) until an outcome is recorded; a success resets the
breaker to closed with `failure_count = 0`, and a recorded failure on a
breaker at (or past) its threshold reopens it with `next_attempt_time`
set `recovery_timeout` after the failure time. -/
theorem circuit_breaker_state_machine :
    (∀ times : ℕ → ℚ, (failN 5 times freshBreaker).state = "open") ∧
    (∀ (times : ℕ → ℚ) (n : ℕ), n < 5 → (failN n times freshBreaker).state = "closed") ∧
    (∀ (b : CircuitBreakerState) (now t : ℚ), b.state = "open" →
      b.next_attempt_time = some t → now < t →
      circuitBreakerAllowsRequest b now = (false, b)) ∧
    (∀ (b : CircuitBreakerState) (now t : ℚ), b.state = "open" →
      b.next_attempt_time = some t → t ≤ now →
      circuitBreakerAllowsRequest b now = (true, { b with state := "half_open" })) ∧
    (∀ (b : CircuitBreakerState) (now : ℚ), b.state = "half_open" →
      circuitBreakerAllowsRequest b now = (true, b)) ∧
    (∀ b : CircuitBreakerState, (resetCircuitBreaker b).state = "closed" ∧
      (resetCircuitBreaker b).failure_count = 0 ∧
      (resetCircuitBreaker b).next_attempt_time = none) ∧
    (∀ (b : CircuitBreakerState) (now : ℚ), b.failure_threshold ≤ b.failure_count + 1 →
      (updateCircuitBreaker b now).state = "open" ∧
      (updateCircuitBreaker b now).next_attempt_time = some (now + b.recovery_timeout)) := by
  refine ⟨?_, ?_, ?_, ?_, ?_, ?_, ?_⟩
  · intro times
    have h := (failN_fresh times 5).2.2.2
    simpa using h
  · intro times n hn
    have h := (failN_fresh times n).2.2.2
    have : ¬ 5 ≤ n := by omega
    simpa [this] using h
  · intro b now t hst hnext hlt
    simp [circuitBreakerAllowsRequest, hst, hnext, hlt.not_le]
  · intro b now t hst hnext hle
    simp [circuitBreakerAllowsRequest, hst, hnext, hle]
  · intro b now hst
    simp [circuitBreakerAllowsRequest, hst]
  · intro b
    refine ⟨rfl, rfl, rfl⟩
  · intro b now h
    simp [updateCircuitBreaker, h]

/-- C2 witness: the state-machine theorem instantiated at concrete
breakers and times. -/
theorem circuit_breaker_state_machine_witness :
    ((failN 5 (fun _ => 0) freshBreaker).state = "open") ∧
    (3 < 5 ∧ (failN 3 (fun _ => 0) freshBreaker).state = "closed") ∧
    (openBreaker100.state = "open" ∧ openBreaker100.next_attempt_time = some 100 ∧
      (59:ℚ) < 100 ∧ circuitBreakerAllowsRequest openBreaker100 59 = (false, openBreaker100)) ∧
    ((100:ℚ) ≤ 130 ∧ circuitBreakerAllowsRequest openBreaker100 130
      = (true, { openBreaker100 with state := "half_open" })) ∧
    (circuitBreakerAllowsRequest { openBreaker100 with state := "half_open" } 131
      = (true, { openBreaker100 with state := "half_open" })) ∧
    ((resetCircuitBreaker openBreaker100).state = "closed" ∧
      (resetCircuitBreaker openBreaker100).failure_count = 0) ∧
    (openBreaker100.failure_threshold ≤ openBreaker100.failure_count + 1 ∧
      (updateCircuitBreaker openBreaker100 130).state = "open" ∧
      (updateCircuitBreaker openBreaker100 130).next_attempt_time
        = some (130 + openBreaker100.recovery_timeout)) :=
  ⟨circuit_breaker_state_machine.1 (fun _ => 0),
   ⟨by norm_num, circuit_breaker_state_machine.2.1 (fun _ => 0) 3 (by norm_num)⟩,
   ⟨rfl, rfl, by norm_num,
    circuit_breaker_state_machine.2.2.1 openBreaker100 59 100 rfl rfl (by norm_num)⟩,
   ⟨by norm_num,
    circuit_breaker_state_machine.2.2.2.1 openBreaker100 130 100 rfl rfl (by norm_num)⟩,
   circuit_breaker_state_machine.2.2.2.2.1 { openBreaker100 with state := "half_open" } 131 rfl,
   ⟨(circuit_breaker_state_machine.2.2.2.2.2.1 openBreaker100).1,
    (circuit_breaker_state_machine.2.2.2.2.2.1 openBreaker100).2.1⟩,
   ⟨by norm_num [openBreaker100],
    (circuit_breaker_state_machine.2.2.2.2.2.2 openBreaker100 130
      (by norm_num [openBreaker100])).1,
    (circuit_breaker_state_machine.2.2.2.2.2.2 openBreaker100 130
      (by norm_num [openBreaker100])).2⟩⟩

/-- C2 counterexample: "exactly one trial call is allowed through" is
false.  Open the breaker with 5 failures at time 0 (so
`next_attempt_time = 60`); at time 60 a first request is allowed and the
breaker moves to half_open, and a second request at time 60, before any
outcome of the first call is recorded, is allowed as well. -/
theorem circuit_breaker_half_open_allows_second_call :
    ((circuitBreakerAllowsRequest (failN 5 (fun _ => 0) freshBreaker) 60).1 = true) ∧
    ((circuitBreakerAllowsRequest (failN 5 (fun _ => 0) freshBreaker) 60).2.state
      = "half_open") ∧
    ((circuitBreakerAllowsRequest
        ((circuitBreakerAllowsRequest (failN 5 (fun _ => 0) freshBreaker) 60).2) 60).1
      = true) := by
  have h5 : failN 5 (fun _ => 0) freshBreaker =
      { failure_count := 5, last_failure_time := some 0, state := "open",
        next_attempt_time := some 60, failure_threshold := 5, recovery_timeout := 60 } := by
    norm_num [failN, updateCircuitBreaker, freshBreaker]
  rw [h5]
  refine ⟨?_, ?_, ?_⟩ <;> decide

/-- C6: evaluation of the terminating-error classification and severity
determination.  Classification succeeds for network / validation /
service-unavailable / internal messages, but raises `AttributeError` for
auth, not-found and rate-limit messages (the enum members those branches
name do not exist); severity determination returns CRITICAL for every
error type once the attempt count reaches 3, and raises `AttributeError`
for every error type below 3. -/
theorem error_classification_and_severity_behavior :
    classifyError "Connection refused by host" = .ok .NETWORK_ERROR ∧
    classifyError "invalid frame payload" = .ok .VALIDATION_ERROR ∧
    classifyError "503 Service Unavailable" = .ok .SERVICE_UNAVAILABLE ∧
    classifyError "boom" = .ok .INTERNAL_ERROR ∧
    classifyError "auth token expired"
      = .error "AttributeError: ErrorType has no attribute AUTHENTICATION_ERROR" ∧
    classifyError "session not found"
      = .error "AttributeError: ErrorType has no attribute RESOURCE_NOT_FOUND" ∧
    classifyError "rate limit exceeded"
      = .error "AttributeError: ErrorType has no attribute RATE_LIMIT_ERROR" ∧
    (∀ et ∈ allErrorTypes, determineSeverity et 3 = .ok .CRITICAL) ∧
    (∀ et ∈ allErrorTypes, determineSeverity et 4 = .ok .CRITICAL) ∧
    (∀ et ∈ allErrorTypes, determineSeverity et 1
      = .error "AttributeError: ErrorType has no attribute AUTHENTICATION_ERROR") ∧
    (∀ et ∈ allErrorTypes, determineSeverity et 2
      = .error "AttributeError: ErrorType has no attribute AUTHENTICATION_ERROR") := by
  decide

/-- C9: with `base_delay = 1`, `exponential_base = 2`, `max_delay = 60`
and jitter disabled, the delay computed after the k-th failed attempt
(0-based index k-1) is `min(1 * 2^(k-1), 60)`, so the successive delays
are [1, 2, 4, 8, 16, 32, 60, 60, ...]; with jitter enabled the delay is
the un-jittered delay multiplied by `0.5 + random() * 0.5`, a factor in
[1/2, 1] for `random()` in [0, 1). -/
theorem retry_delay_sequence :
    (∀ k : ℕ, 1 ≤ k →
      calculateRetryDelay (k - 1) { jitter := false } 0 = min (1 * 2 ^ (k - 1)) 60) ∧
    ((List.range 8).map (fun i => calculateRetryDelay i { jitter := false } 0)
      = [1, 2, 4, 8, 16, 32, 60, 60]) ∧
    (∀ (attempt : ℕ) (config : RetryConfig) (r : ℚ),
      config.jitter = true → 0 ≤ r → r < 1 →
      calculateRetryDelay attempt config r
        = calculateRetryDelay attempt { config with jitter := false } 0 * (1/2 + r * (1/2)) ∧
      1/2 ≤ 1/2 + r * (1/2) ∧ 1/2 + r * (1/2) ≤ 1) := by
  refine ⟨?_, ?_, ?_⟩
  · intro k hk
    simp [calculateRetryDelay]
  · norm_num [List.range_succ, calculateRetryDelay, min_def]
  · intro attempt config r hj hr0 hr1
    refine ⟨?_, by linarith, by linarith⟩
    by_cases hs : config.backoff_strategy = .EXPONENTIAL_BACKOFF <;>
      simp [calculateRetryDelay, hj, hs]

/-- C9 witness: the delay theorem applied at k = 7 (the first capped
delay) and at a concrete jitter draw r = 1/4. -/
theorem retry_delay_sequence_witness :
    (1 ≤ 7 ∧ calculateRetryDelay 6 { jitter := false } 0 = min (1 * 2 ^ 6) 60) ∧
    (({} : RetryConfig).jitter = true ∧ (0:ℚ) ≤ 1/4 ∧ (1:ℚ)/4 < 1 ∧
      (calculateRetryDelay 0 {} (1/4)
        = calculateRetryDelay 0 { ({} : RetryConfig) with jitter := false } 0
            * (1/2 + (1/4) * (1/2)) ∧
       1/2 ≤ 1/2 + (1/4:ℚ) * (1/2) ∧ 1/2 + (1/4:ℚ) * (1/2) ≤ 1)) :=
  ⟨⟨by norm_num, retry_delay_sequence.1 7 (by norm_num)⟩,
   ⟨rfl, by norm_num, by norm_num,
    retry_delay_sequence.2.2 0 {} (1/4) rfl (by norm_num) (by norm_num)⟩⟩

/-- C10: evaluation of `retry_operation` at its two terminal behaviors.
When every attempt fails (operation always raising "boom", 3 attempts,
fresh operation context and breaker), exhaustion calls
`handle_error_with_recovery`, which raises `AttributeError` (severity
determination touches missing `ErrorType` members), so the caller gets an
exception rather than an `EnhancedErrorResponse` value.  When the first
attempt succeeds, the operation result is returned unchanged and the
circuit breaker is reset. -/
theorem retry_operation_exhaustion_raises :
    (retryOperation (fun _ => (.error "boom" : Except String ℕ)) "create_session"
        (fun _ => 0) 3 1 freshBreaker).1
      = .error "AttributeError: ErrorType has no attribute AUTHENTICATION_ERROR" ∧
    retryOperation (fun _ => (.ok 42 : Except String ℕ)) "create_session"
        (fun _ => 0) 3 1 freshBreaker
      = (.ok (some (.inl 42)), freshBreaker) := by
  decide

/-- The TIME-branch check never returns True: the timestamp read raises
before any comparison happens. -/
theorem shouldEndSessionTimeCheck_ne_true (m : SessionMemory) (f : FrameBundle) :
    shouldEndSessionTimeCheck m f ≠ .ok true := by
  unfold shouldEndSessionTimeCheck
  rcases m.settings.session_type.minutes with _ | mins <;>
    rcases m.timeline with _ | ⟨e, rest⟩ <;>
      simp [timelineEventGetTimestamp]
  by_cases hm0 : mins = 0 <;> simp [hm0]

/-- The ACTIVITY-branch check either reports "do not end, memory
unchanged" (empty timeline) or raises at the timestamp read. -/
theorem shouldEndSessionActivityCheck_cases (m : SessionMemory) (f : FrameBundle) :
    shouldEndSessionActivityCheck m f = .ok (false, m) ∨
    shouldEndSessionActivityCheck m f
      = .error "AttributeError: TimelineEvent object has no attribute get" := by
  unfold shouldEndSessionActivityCheck
  rcases m.timeline with _ | ⟨e, rest⟩ <;> simp [timelineEventGetTimestampD]

/-- Under field-name attribute semantics `should_end_session` returns
False on every input and never mutates the memory. -/
theorem shouldEndSessionFieldSemantics_eq (m : SessionMemory) (f : FrameBundle) :
    shouldEndSessionFieldSemantics m f = (false, m) := by
  cases hty : m.settings.session_type.type with
  | MANUAL => simp [shouldEndSessionFieldSemantics, hty]
  | TIME =>
    simp only [shouldEndSessionFieldSemantics, hty]
    rcases hc : shouldEndSessionTimeCheck m f with err | b
    · rfl
    · cases b
      · rfl
      · exact absurd hc (shouldEndSessionTimeCheck_ne_true m f)
  | ACTIVITY =>
    simp only [shouldEndSessionFieldSemantics, hty]
    rcases hact : m.current_activity with _ | a <;>
      rcases htl : m.timeline with _ | ⟨e, rest⟩ <;> try rfl
    rcases shouldEndSessionActivityCheck_cases m f with h | h <;> simp [h]

/-- C4: evaluation of `should_end_session` at a TIME session with
`minutes = 60` and a frame arriving 61 minutes after the first timeline
entry.  The call raises `AttributeError` at the alias attribute read
`settings.sessionType` instead of returning `true`; and even under the
counterfactual field-name semantics it returns `false` both at 61 and at
59 minutes, because timeline entries carry no `timestamp` key (the
`.get` call raises and the handler swallows the exception), so the
TIME policy can never trigger. -/
theorem time_policy_never_ends_session :
    (shouldEndSession memTime60 frame61).1
      = .error "AttributeError: SessionSettings object has no attribute sessionType" ∧
    (shouldEndSession memTime60 frame61).2 = memTime60 ∧
    shouldEndSessionFieldSemantics memTime60 frame61 = (false, memTime60) ∧
    shouldEndSessionFieldSemantics memTime60 frame59 = (false, memTime60) :=
  ⟨rfl, rfl, rfl, rfl⟩

/-- C5 (amended): `should_end_session` never mutates its memory argument
— the faithful semantics raises `AttributeError` at the alias read
`settings.sessionType` before anything else runs, and even under
field-name attribute semantics every path returns False with the memory
unchanged (the ACTIVITY-branch reassignment of `currentActivity` is dead
code behind a raising `.get`).  However, it does not return a boolean:
every call raises, so the "pure read" contract holds only for the
absence of mutation. -/
theorem should_end_session_never_mutates (m : SessionMemory) (f : FrameBundle) :
    (shouldEndSession m f).2 = m ∧
    (shouldEndSession m f).1
      = .error "AttributeError: SessionSettings object has no attribute sessionType" ∧
    shouldEndSessionFieldSemantics m f = (false, m) :=
  ⟨rfl, rfl, shouldEndSessionFieldSemantics_eq m f⟩

/-- C5 counterexample: at a concrete MANUAL session and frame,
`should_end_session` does not return a boolean — the call raises
(`AttributeError`), leaving the memory unchanged. -/
theorem should_end_session_raises_not_bool :
    (¬ ∃ b : Bool, (shouldEndSession memManual frame61).1 = .ok b) ∧
    (shouldEndSession memManual frame61).2 = memManual := by
  constructor
  · rintro ⟨b, hb⟩
    simp [shouldEndSession] at hb
  · rfl

/-- Under field-name attribute semantics the expiry check marks every
session with a non-empty timeline expired: whichever sub-check runs first
on a non-empty timeline raises at `.get`, and a raised check means
expired. -/
theorem cleanupMarksExpiredFieldSemantics_of_ne_nil (m : SessionMemory) (now : ℚ)
    (h : m.timeline ≠ []) : cleanupMarksExpiredFieldSemantics m now = true := by
  unfold cleanupMarksExpiredFieldSemantics cleanupCheckFieldSemantics
  rcases htl : m.timeline with _ | ⟨e, rest⟩
  · exact absurd htl h
  · rcases m.settings.session_type.type <;>
      rcases m.settings.session_type.minutes with _ | mins <;>
        simp [timelineEventGetTimestamp, timelineEventGetTimestampD]
    by_cases hm0 : mins = 0 <;> simp [hm0, timelineEventGetTimestampD]

/-- C7 (amended): the per-frame termination check can never end a session
(in the faithful semantics it raises — never returning `true` — and under
field-name semantics the TIME branch's exception handler treats the
missing timestamp as "not ended" and returns False); but the periodic
expiry sweep does the opposite of the claim: its exception handler marks
any session whose expiry check raises as expired and deletes it, which in
the faithful semantics is every session, and under field-name semantics
every session with a non-empty timeline (whose entries, per the schema,
never carry timestamps). -/
theorem malformed_timeline_entries_and_liveness :
    (∀ (m : SessionMemory) (f : FrameBundle),
      (shouldEndSession m f).1 ≠ .ok true ∧
      (shouldEndSessionFieldSemantics m f).1 = false) ∧
    (∀ (sessions : List (String × SessionMemory)) (now : ℚ),
      cleanupExpiredSessions sessions now = sessions.map Prod.fst) ∧
    (∀ (sid : String) (m : SessionMemory) (now : ℚ), m.timeline ≠ [] →
      cleanupExpiredSessionsFieldSemantics [(sid, m)] now = [sid]) := by
  refine ⟨?_, ?_, ?_⟩
  · intro m f
    exact ⟨by simp [shouldEndSession], by rw [shouldEndSessionFieldSemantics_eq]⟩
  · intro sessions now
    simp [cleanupExpiredSessions, cleanupMarksExpired]
  · intro sid m now h
    simp [cleanupExpiredSessionsFieldSemantics,
      cleanupMarksExpiredFieldSemantics_of_ne_nil m now h]

/-- C7 witness: the sweep theorem applied to a concrete session whose
single timeline entry has no timestamp. -/
theorem malformed_timeline_entries_and_liveness_witness :
    memTime60.timeline ≠ [] ∧
    cleanupExpiredSessionsFieldSemantics [("session-w", memTime60)] 0 = ["session-w"] :=
  ⟨by simp [memTime60],
   malformed_timeline_entries_and_liveness.2.2 "session-w" memTime60 0 (by simp [memTime60])⟩

/-- C7 counterexample: the sweep deletes a session solely because its
timeline entry is malformed (no timestamp): the concrete TIME session
with one `t`/`event`-only entry is returned in the deletion list, in both
semantics. -/
theorem cleanup_deletes_session_with_malformed_timeline :
    cleanupExpiredSessions [("session-1", memTime60)] 1000 = ["session-1"] ∧
    cleanupExpiredSessionsFieldSemantics [("session-1", memTime60)] 1000 = ["session-1"] :=
  ⟨rfl, rfl⟩

/-- C3 (amended): routing validation characterized.  Given a payload
whose pydantic-required fields (`context`, `ocrText`) are present: a
`text` route always constructs the text variant; `text+image` constructs
the text+image variant exactly when the `imageRef` key is present
(emptiness is not checked); the video routes construct the video variant
exactly when `transcriptDelta` is present; every other route (including
`none` with a context attached, and `audio`) raises.  The incoming
context tag is never consulted — the constructed variant follows the
route alone, so mismatched tags are coerced, not rejected. -/
theorem routing_validation_characterization (route : String) (d : RawAgentContext)
    (hc : d.context.isSome = true) (ho : d.ocrText.isSome = true) :
    (route = "text" →
      ∃ ctx, validateAndConstructAgentContext route d = .ok ctx ∧
        contextTagOf ctx = "text") ∧
    (route = "text+image" →
      ((∃ ctx, validateAndConstructAgentContext route d = .ok ctx ∧
          contextTagOf ctx = "text_image") ↔ d.imageRef.isSome = true)) ∧
    ((route = "short-video" ∨ route = "long-video") →
      ((∃ ctx, validateAndConstructAgentContext route d = .ok ctx ∧
          contextTagOf ctx = "video") ↔ d.transcriptDelta.isSome = true)) ∧
    (route ≠ "text" → route ≠ "text+image" → route ≠ "short-video" →
      route ≠ "long-video" →
      ∃ e, validateAndConstructAgentContext route d = .error e) := by
  obtain ⟨c, hcv⟩ := Option.isSome_iff_exists.mp hc
  obtain ⟨o, hov⟩ := Option.isSome_iff_exists.mp ho
  refine ⟨?_, ?_, ?_, ?_⟩
  · intro h
    subst h
    exact ⟨.text c o (d.hints.getD []),
      by simp [validateAndConstructAgentContext, hcv, hov], rfl⟩
  · intro h
    subst h
    rcases himg : d.imageRef with _ | img <;>
      simp [validateAndConstructAgentContext, himg, hcv, hov, contextTagOf]
  · intro h
    rcases h with h | h <;> subst h <;>
      rcases htd : d.transcriptDelta with _ | td <;>
        simp [validateAndConstructAgentContext, htd, hcv, hov, contextTagOf]
  · intro h1 h2 h3 h4
    refine ⟨"ValueError: invalid route for agent context construction", ?_⟩
    simp [validateAndConstructAgentContext, h1, h2, h3, h4]

/-- C3 witness: the characterization applied to the `none` route with a
(truthy) attached context — the contract violation the claim describes is
indeed rejected for this pair. -/
theorem routing_validation_characterization_witness :
    rawCtxEmptyImage.context.isSome = true ∧ rawCtxEmptyImage.ocrText.isSome = true ∧
    (∃ e, validateAndConstructAgentContext "none" rawCtxEmptyImage = .error e) :=
  ⟨rfl, rfl,
   (routing_validation_characterization "none" rawCtxEmptyImage rfl rfl).2.2.2
     (by decide) (by decide) (by decide) (by decide)⟩

/-- C3 counterexample: mismatched (route, tag) pairs are not rejected.
A payload that arrived tagged `video` (with a transcript delta and an
image reference) is silently coerced by the `text` route into a text
context — no error is raised, the image/video fields are dropped; and a
`text+image` route accepts an *empty* image reference: only the key's
presence is checked. -/
theorem routing_validation_coerces_mismatched_tag :
    rawCtxVideoTagged.contextType = some "video" ∧
    rawCtxVideoTagged.transcriptDelta.isSome = true ∧
    validateAndConstructAgentContext "text" rawCtxVideoTagged
      = .ok (.text [("summary", "clip about vaccines")] "caption text" []) ∧
    contextTagOf (.text [("summary", "clip about vaccines")] "caption text" []) = "text" ∧
    rawCtxEmptyImage.imageRef = some "" ∧
    validateAndConstructAgentContext "text+image" rawCtxEmptyImage
      = .ok (.textImage [] "caption" [] "") :=
  ⟨rfl, rfl, rfl, rfl, rfl, rfl⟩

/-- C8: degradation to the Manager-only response.  If the dispatched
media agent raises (any checker error, including the agents' own context
type-mismatch errors), `process_frame` returns the manager response
unchanged, for any synthesis behavior; and if the synthesis call raises,
the manager response is returned with its original notifications
unmodified, for any checker behavior. -/
theorem checker_and_synthesis_failures_degrade :
    (∀ (mr : ManagerResponse) (e : String)
        (synthesize : ManagerResponse → FactCheckResult → Except String (Option String)),
      orchestratorProcessFrame mr (fun _ _ => .error e) synthesize = mr) ∧
    (∀ (mr : ManagerResponse)
        (factCheck : Route → AgentContextU → Except String FactCheckResult) (e : String),
      orchestratorProcessFrame mr factCheck (fun _ _ => .error e) = mr) := by
  constructor
  · intro mr e synthesize
    obtain ⟨mem, route, ctx?, es, notifs⟩ := mr
    cases route <;> rcases ctx? with _ | ctx <;>
      simp [orchestratorProcessFrame]
  · intro mr factCheck e
    obtain ⟨mem, route, ctx?, es, notifs⟩ := mr
    cases route <;> rcases ctx? with _ | ctx <;>
      simp [orchestratorProcessFrame] <;>
      rcases factCheck _ ctx with err | fc <;> simp

end Checkmate
